import Mathlib

set_option maxRecDepth 10000

/-
Verification development for pyhashdiff.py, a tool that compares two files or
two directory trees by size and MD5 digest.

The filesystem is modelled as a map from absolute path to file data (byte
content plus fault flags for the two I/O operations the program performs:
`os.path.getsize`, which is not wrapped in any try/except, and the
open/read loop inside `md5_hash`, whose IOError/FileNotFoundError is caught)
together with a map from a directory root to the relative paths of the
regular files that `Path(root).rglob("*")`/`is_file()` enumerates beneath it.
Python exceptions are modelled with `Except Unit`; an uncaught exception
propagates as `Except.error ()`.

MD5 itself (the stdlib `hashlib.md5`) is embedded concretely: the full
RFC 1321 algorithm over byte lists, with 32-bit words as `Nat` reduced
modulo 2 ^ 32.
-/

/-- 2 ^ 32, the word modulus of MD5. -/
def M32 : Nat := 4294967296

/-- Bitwise complement on 32-bit words represented as `Nat`. -/
def mnot (x : Nat) : Nat := x ^^^ 4294967295

/-- Left-rotation of a 32-bit word by `s` bits. -/
def rotl (x s : Nat) : Nat := ((x <<< s) ||| (x >>> (32 - s))) % M32

/-- The 64 round constants of MD5: `K[i] = floor(2^32 * |sin(i+1)|)`. -/
def md5K : List Nat :=
  [3614090360, 3905402710, 606105819, 3250441966, 4118548399, 1200080426,
   2821735955, 4249261313, 1770035416, 2336552879, 4294925233, 2304563134,
   1804603682, 4254626195, 2792965006, 1236535329, 4129170786, 3225465664,
   643717713, 3921069994, 3593408605, 38016083, 3634488961, 3889429448,
   568446438, 3275163606, 4107603335, 1163531501, 2850285829, 4243563512,
   1735328473, 2368359562, 4294588738, 2272392833, 1839030562, 4259657740,
   2763975236, 1272893353, 4139469664, 3200236656, 681279174, 3936430074,
   3572445317, 76029189, 3654602809, 3873151461, 530742520, 3299628645,
   4096336452, 1126891415, 2878612391, 4237533241, 1700485571, 2399980690,
   4293915773, 2240044497, 1873313359, 4264355552, 2734768916, 1309151649,
   4149444226, 3174756917, 718787259, 3951481745]

/-- The 64 per-round left-rotation amounts of MD5. -/
def md5S : List Nat :=
  [7, 12, 17, 22, 7, 12, 17, 22, 7, 12, 17, 22, 7, 12, 17, 22,
   5, 9, 14, 20, 5, 9, 14, 20, 5, 9, 14, 20, 5, 9, 14, 20,
   4, 11, 16, 23, 4, 11, 16, 23, 4, 11, 16, 23, 4, 11, 16, 23,
   6, 10, 15, 21, 6, 10, 15, 21, 6, 10, 15, 21, 6, 10, 15, 21]

/-- Little-endian 32-bit word number `g` of a 64-byte block. -/
def leWord (bs : List Nat) (g : Nat) : Nat :=
  bs.getD (4 * g) 0 + 256 * bs.getD (4 * g + 1) 0 + 65536 * bs.getD (4 * g + 2) 0 +
    16777216 * bs.getD (4 * g + 3) 0

/-- One MD5 round: state `(a, b, c, d)`, round index `i`, message block `block`. -/
def md5Round (block : List Nat) (st : Nat × Nat × Nat × Nat) (i : Nat) :
    Nat × Nat × Nat × Nat :=
  let (a, b, c, d) := st
  let f :=
    if i < 16 then (b &&& c) ||| (mnot b &&& d)
    else if i < 32 then (d &&& b) ||| (mnot d &&& c)
    else if i < 48 then b ^^^ c ^^^ d
    else c ^^^ (b ||| mnot d)
  let g :=
    if i < 16 then i
    else if i < 32 then (5 * i + 1) % 16
    else if i < 48 then (3 * i + 5) % 16
    else (7 * i) % 16
  let h := (f + a + md5K.getD i 0 + leWord block g) % M32
  (d, (b + rotl h (md5S.getD i 0)) % M32, b, c)

/-- MD5 compression of one 64-byte block into the running state. -/
def md5Block (st : Nat × Nat × Nat × Nat) (block : List Nat) :
    Nat × Nat × Nat × Nat :=
  let r := (List.range 64).foldl (md5Round block) st
  ((st.1 + r.1) % M32, (st.2.1 + r.2.1) % M32, (st.2.2.1 + r.2.2.1) % M32,
    (st.2.2.2 + r.2.2.2) % M32)

/-- The `k` little-endian bytes of `n`. -/
def leBytes (n k : Nat) : List Nat := (List.range k).map fun i => (n >>> (8 * i)) % 256

/-- MD5 padding: append `0x80`, zeros to 56 mod 64, then the bit length as
a 64-bit little-endian quantity. -/
def md5Pad (msg : List Nat) : List Nat :=
  msg ++ [128] ++ List.replicate ((120 - (msg.length + 1) % 64) % 64) 0 ++
    leBytes ((8 * msg.length) % 18446744073709551616) 8

/-- Split a list into consecutive chunks of `n` elements (the last chunk may be
shorter); this is both how `md5_hash` streams a file in 4096-byte reads and how
MD5 consumes its padded input in 64-byte blocks. -/
def chunksOfFuel : Nat → Nat → List α → List (List α)
  | 0, _, _ => []
  | _ + 1, _, [] => []
  | _ + 1, 0, _ :: _ => []
  | fuel + 1, m + 1, x :: xs => (x :: xs).take (m + 1) :: chunksOfFuel fuel (m + 1) (xs.drop m)

/-- `chunksOf n l`: the chunks themselves (the fuel `l.length` always suffices,
since a chunk consumes at least one element). -/
def chunksOf (n : Nat) (l : List α) : List (List α) := chunksOfFuel l.length n l

/-- The MD5 state after absorbing the whole padded message. -/
def md5core (msg : List Nat) : Nat × Nat × Nat × Nat :=
  (chunksOf 64 (md5Pad msg)).foldl md5Block (1732584193, 4023233417, 2562383102, 271733878)

/-- Lower-case hex digit of a value below 16. -/
def hexDigit (n : Nat) : Char := if n < 10 then Char.ofNat (48 + n) else Char.ofNat (87 + n)

/-- Two lower-case hex digits of a byte. -/
def byteHex (b : Nat) : List Char := [hexDigit (b / 16), hexDigit (b % 16)]

/-- `hashlib.md5(msg).hexdigest()`: the 32-character lower-case hex digest. -/
def md5hex (msg : List Nat) : String :=
  let r := md5core msg
  String.mk ((leBytes r.1 4 ++ leBytes r.2.1 4 ++ leBytes r.2.2.1 4 ++
    leBytes r.2.2.2 4).flatMap byteHex)

/-- First message of the published MD5 collision pair (Wang et al.), 128 bytes. -/
def colA : List Nat :=
  [209, 49, 221, 2, 197, 230, 238, 196, 105, 61, 154, 6, 152, 175, 249, 92,
   47, 202, 181, 135, 18, 70, 126, 171, 64, 4, 88, 62, 184, 251, 127, 137,
   85, 173, 52, 6, 9, 244, 179, 2, 131, 228, 136, 131, 37, 113, 65, 90,
   8, 81, 37, 232, 247, 205, 201, 159, 217, 29, 189, 242, 128, 55, 60, 91,
   216, 130, 62, 49, 86, 52, 143, 91, 174, 109, 172, 212, 54, 201, 25, 198,
   221, 83, 226, 180, 135, 218, 3, 253, 2, 57, 99, 6, 210, 72, 205, 160,
   233, 159, 51, 66, 15, 87, 126, 232, 206, 84, 182, 112, 128, 168, 13, 30,
   198, 152, 33, 188, 182, 168, 131, 147, 150, 249, 101, 43, 111, 247, 42, 112]

/-- Second message of the collision pair: same length, differing in six bytes,
same MD5 digest. -/
def colB : List Nat :=
  [209, 49, 221, 2, 197, 230, 238, 196, 105, 61, 154, 6, 152, 175, 249, 92,
   47, 202, 181, 7, 18, 70, 126, 171, 64, 4, 88, 62, 184, 251, 127, 137,
   85, 173, 52, 6, 9, 244, 179, 2, 131, 228, 136, 131, 37, 241, 65, 90,
   8, 81, 37, 232, 247, 205, 201, 159, 217, 29, 189, 114, 128, 55, 60, 91,
   216, 130, 62, 49, 86, 52, 143, 91, 174, 109, 172, 212, 54, 201, 25, 198,
   221, 83, 226, 52, 135, 218, 3, 253, 2, 57, 99, 6, 210, 72, 205, 160,
   233, 159, 51, 66, 15, 87, 126, 232, 206, 84, 182, 112, 128, 40, 13, 30,
   198, 152, 33, 188, 182, 168, 131, 147, 150, 249, 101, 171, 111, 247, 42, 112]

/-- What the model knows about one absolute path: the file's byte content and
fault flags for the two I/O operations the program performs on it.
`statOk` is whether `os.path.getsize` succeeds (it reports the byte length,
and is wrapped in no try/except); `readOk` is whether the `open`/`read` loop
inside `md5_hash` succeeds (its IOError/FileNotFoundError is caught). -/
structure FileData where
  content : List Nat
  statOk : Bool
  readOk : Bool

/-- The filesystem state: per-path file data, and per-root the list of
relative paths of regular files enumerated by `Path(root).rglob("*")` with
`is_file()` (an arbitrary, possibly duplicate-free, traversal order). -/
structure FS where
  file : String → FileData
  tree : String → List String

/-- `os.path.getsize(p)`: the byte length, or an uncaught OSError. -/
def getsize (fs : FS) (p : String) : Except Unit Nat :=
  if (fs.file p).statOk then Except.ok (fs.file p).content.length else Except.error ()

/-- `md5_hash(file_path)`: streams the file in 4096-byte chunks through the
MD5 state (`hashlib` streaming makes this the digest of the concatenated
chunks) and returns the hex digest, or `none` when the read raises
IOError/FileNotFoundError (the diagnostic print is not modelled). -/
def md5_hash (fs : FS) (file_path : String) : Option String :=
  if (fs.file file_path).readOk then
    some (md5hex ((chunksOf 4096 (fs.file file_path).content).flatten))
  else none

/-- Lines 64-70 of the source: the verdict `compare_files` derives from the
two digest results once the sizes agree. The `None` check comes first, then
the inequality check. -/
def hashVerdict (o1 o2 : Option String) : Bool × String :=
  match o1, o2 with
  | some md5_1, some md5_2 =>
    if md5_1 ≠ md5_2 then (false, "MD5 hashes differ: " ++ md5_1 ++ " != " ++ md5_2)
    else (true, "Files are the same.")
  | _, _ => (false, "Error calculating MD5 hash.")

/-- `compare_files(file1, file2)`: size check first, then digest check;
an uncaught OSError from `os.path.getsize` propagates as `Except.error`. -/
def compare_files (fs : FS) (file1 file2 : String) : Except Unit (Bool × String) :=
  match getsize fs file1 with
  | Except.error e => Except.error e
  | Except.ok size1 =>
    match getsize fs file2 with
    | Except.error e => Except.error e
    | Except.ok size2 =>
      if size1 ≠ size2 then
        Except.ok (false, "Sizes differ: " ++ toString size1 ++ " != " ++ toString size2)
      else
        Except.ok (hashVerdict (md5_hash fs file1) (md5_hash fs file2))

/-- `str(Path(dir) / file)` for the simple relative paths `rglob` yields. -/
def pathJoin (d f : String) : String := d ++ "/" ++ f

/-- Python dict assignment `m[k] = v`, with the dict as a map into `Option`. -/
def updateMap (m : String → Option String) (k v : String) : String → Option String :=
  fun p => if p = k then some v else m p

/-- The relative paths in `files1` but not `files2` (half of
`files1.symmetric_difference(files2)`). -/
def uniqueTo1 (files1 files2 : List String) : List String :=
  files1.filter fun p => ¬ p ∈ files2

/-- The relative paths in `files2` but not `files1` (the other half of the
symmetric difference). -/
def uniqueTo2 (files1 files2 : List String) : List String :=
  files2.filter fun p => ¬ p ∈ files1

/-- `files1.intersection(files2)`: the relative paths present in both trees. -/
def commonOf (files1 files2 : List String) : List String :=
  files1.filter fun p => p ∈ files2

/-- The label stored for a symmetric-difference entry: `"UNIQ: Only in "`
followed by the root that contains it (`if file in files1` in the source). -/
def uniqLabel (files1 : List String) (dir1 dir2 : String) (file : String) : String :=
  if file ∈ files1 then "UNIQ: Only in " ++ dir1 else "UNIQ: Only in " ++ dir2

/-- One iteration of the common-files loop of `compare_directories`:
run `compare_files` on the two reconstructed absolute paths and record the
message when the verdict is "not same"; an exception propagates. -/
def dirStep (fs : FS) (dir1 dir2 : String) (m : String → Option String)
    (file : String) : Except Unit (String → Option String) :=
  match compare_files fs (pathJoin dir1 file) (pathJoin dir2 file) with
  | Except.error e => Except.error e
  | Except.ok (same, message) =>
    Except.ok (if !same then updateMap m file message else m)

/-- The common-files `for` loop of `compare_directories`, iteration by
iteration; an exception raised in the body aborts the loop. -/
def commonFold (fs : FS) (dir1 dir2 : String) :
    (String → Option String) → List String → Except Unit (String → Option String)
  | m, [] => Except.ok m
  | m, file :: rest =>
    match dirStep fs dir1 dir2 m file with
    | Except.error e => Except.error e
    | Except.ok m2 => commonFold fs dir1 dir2 m2 rest

/-- `compare_directories(dir1, dir2)`: enumerate both trees, record a `UNIQ`
label for every symmetric-difference entry, then run `compare_files` on every
common relative path, recording the message when not same. An uncaught
exception from `compare_files` aborts the whole comparison. -/
def compare_directories (fs : FS) (dir1 dir2 : String) :
    Except Unit (String → Option String) :=
  let files1 := fs.tree dir1
  let files2 := fs.tree dir2
  let results1 := (uniqueTo1 files1 files2 ++ uniqueTo2 files1 files2).foldl
    (fun m file => updateMap m file (uniqLabel files1 dir1 dir2 file)) (fun _ => none)
  commonFold fs dir1 dir2 results1 (commonOf files1 files2)

/-- The file-vs-file branch of `main`: the list of lines printed to standard
output (one line), or the uncaught exception. Note the inverted labels in the
source: `DIFF:` when `same` is true, `SAME:` when it is false. -/
def mainFileCase (fs : FS) (path1 path2 : String) : Except Unit (List String) :=
  match compare_files fs path1 path2 with
  | Except.error e => Except.error e
  | Except.ok (same, message) =>
    if same then Except.ok ["DIFF: " ++ message]
    else Except.ok ["SAME: " ++ message]

/-! ### Concrete filesystem fixtures used to instantiate the theorems -/

/-- Two regular files of sizes 10 and 12 whose contents cannot be read:
the size short-circuit needs no read. -/
def fsSizes : FS :=
  { file := fun p =>
      if p = "f1" then ⟨List.replicate 10 0, true, false⟩
      else ⟨List.replicate 12 0, true, false⟩
    tree := fun _ => [] }

/-- Every path is a readable zero-byte file. -/
def fsEmpty : FS :=
  { file := fun _ => ⟨[], true, true⟩
    tree := fun _ => [] }

/-- The two colliding 128-byte messages as the contents of `f1` and `f2`. -/
def fsCollide : FS :=
  { file := fun p => if p = "f1" then ⟨colA, true, true⟩ else ⟨colB, true, true⟩
    tree := fun _ => [] }

/-- Two readable one-byte files with different bytes. -/
def fsBytes : FS :=
  { file := fun p => if p = "f1" then ⟨[0], true, true⟩ else ⟨[7], true, true⟩
    tree := fun _ => [] }

/-- Two equal-size files, the first of which fails to open for reading. -/
def fsUnreadable : FS :=
  { file := fun p => if p = "f1" then ⟨[0], true, false⟩ else ⟨[7], true, true⟩
    tree := fun _ => [] }

/-- Two directory trees sharing `a` (equal content) and `b` (different
content). -/
def fsDir : FS :=
  { file := fun p =>
      if p = "d1/a" then ⟨[104], true, true⟩
      else if p = "d2/a" then ⟨[104], true, true⟩
      else if p = "d1/b" then ⟨[1], true, true⟩
      else ⟨[2], true, true⟩
    tree := fun d => if d = "d1" then ["a", "b"] else if d = "d2" then ["a", "b"] else [] }

/-- Two directory trees with a shared file `a` and unique files `b` and `c`. -/
def fsDirU : FS :=
  { file := fun _ => ⟨[104, 105], true, true⟩
    tree := fun d => if d = "d1" then ["a", "b"] else if d = "d2" then ["a", "c"] else [] }

/-- Two directory trees sharing `bad` and `good`, where the size query on
`d1/bad` raises while every other file is healthy. -/
def fsAbort : FS :=
  { file := fun p =>
      if p = "d1/bad" then ⟨[], false, false⟩
      else if p = "d1/good" then ⟨[1], true, true⟩
      else if p = "d2/good" then ⟨[2], true, true⟩
      else ⟨[], true, true⟩
    tree := fun d => if d = "d1" then ["bad", "good"] else if d = "d2" then ["bad", "good"] else [] }

/-- Two directory trees sharing `u` and `v`, where `d1/u` can be sized but
not opened for reading, and every size query succeeds. -/
def fsUnread : FS :=
  { file := fun p =>
      if p = "d1/u" then ⟨[5], true, false⟩
      else if p = "d2/u" then ⟨[6], true, true⟩
      else ⟨[8], true, true⟩
    tree := fun d => if d = "d1" then ["u", "v"] else if d = "d2" then ["u", "v"] else [] }

/-- A one-file filesystem: every path holds the byte `3`. -/
def fsP1 : FS :=
  { file := fun _ => ⟨[3], true, true⟩
    tree := fun _ => [] }

/-- A filesystem agreeing with `fsP1` only at path `x`. -/
def fsP2 : FS :=
  { file := fun q => if q = "x" then ⟨[3], true, true⟩ else ⟨[9], true, false⟩
    tree := fun d => [d] }

/-! ### Basic lemmas about the embedding -/

theorem chunksOfFuel_flatten (m : Nat) :
    ∀ (fuel : Nat) (l : List α), l.length ≤ fuel →
      (chunksOfFuel fuel (m + 1) l).flatten = l := by
  intro fuel
  induction fuel with
  | zero =>
    intro l hl
    have hnil : l = [] := List.eq_nil_of_length_eq_zero (Nat.le_zero.mp hl)
    subst hnil
    rfl
  | succ f ih =>
    intro l hl
    cases l with
    | nil => rfl
    | cons x xs =>
      have hlen : (xs.drop m).length ≤ f := by
        simp only [List.length_drop]
        simp only [List.length_cons] at hl
        omega
      show ((x :: xs).take (m + 1) :: chunksOfFuel f (m + 1) (xs.drop m)).flatten = x :: xs
      rw [List.flatten_cons, ih (xs.drop m) hlen,
        show xs.drop m = (x :: xs).drop (m + 1) from rfl, List.take_append_drop]

theorem chunksOf_flatten (n : Nat) (hn : n ≠ 0) (l : List α) :
    (chunksOf n l).flatten = l := by
  obtain ⟨m, rfl⟩ := Nat.exists_eq_succ_of_ne_zero hn
  exact chunksOfFuel_flatten m l.length l (Nat.le_refl _)

/-- `md5_hash` in closed form: the digest of the file's full byte content when
the read succeeds (streaming in 4096-byte chunks rebuilds the whole content). -/
theorem md5_hash_eq (fs : FS) (p : String) :
    md5_hash fs p =
      if (fs.file p).readOk then some (md5hex (fs.file p).content) else none := by
  unfold md5_hash
  rw [chunksOf_flatten 4096 (by decide)]

/-- `compare_files` when the first size query raises. -/
theorem compare_files_err1 (fs : FS) (f1 f2 : String)
    (h1 : (fs.file f1).statOk = false) :
    compare_files fs f1 f2 = Except.error () := by
  unfold compare_files getsize
  simp [h1]

/-- `compare_files` when the second size query raises. -/
theorem compare_files_err2 (fs : FS) (f1 f2 : String)
    (h1 : (fs.file f1).statOk = true) (h2 : (fs.file f2).statOk = false) :
    compare_files fs f1 f2 = Except.error () := by
  unfold compare_files getsize
  simp [h1, h2]

/-- `compare_files` in closed form when both size queries succeed. -/
theorem compare_files_eq_of_statOk (fs : FS) (f1 f2 : String)
    (h1 : (fs.file f1).statOk = true) (h2 : (fs.file f2).statOk = true) :
    compare_files fs f1 f2 =
      if (fs.file f1).content.length ≠ (fs.file f2).content.length then
        Except.ok (false, "Sizes differ: " ++ toString (fs.file f1).content.length ++
          " != " ++ toString (fs.file f2).content.length)
      else
        Except.ok (hashVerdict (md5_hash fs f1) (md5_hash fs f2)) := by
  unfold compare_files getsize
  simp [h1, h2]

/-- `compare_files` returns normally exactly when both size queries succeed. -/
theorem compare_files_ok_iff (fs : FS) (f1 f2 : String) :
    (∃ r, compare_files fs f1 f2 = Except.ok r) ↔
      ((fs.file f1).statOk = true ∧ (fs.file f2).statOk = true) := by
  constructor
  · rintro ⟨r, hr⟩
    cases hb1 : (fs.file f1).statOk with
    | false => rw [compare_files_err1 fs f1 f2 hb1] at hr; exact Except.noConfusion hr
    | true =>
      cases hb2 : (fs.file f2).statOk with
      | false => rw [compare_files_err2 fs f1 f2 hb1 hb2] at hr; exact Except.noConfusion hr
      | true => exact ⟨rfl, rfl⟩
  · rintro ⟨h1, h2⟩
    rw [compare_files_eq_of_statOk fs f1 f2 h1 h2]
    split
    · exact ⟨_, rfl⟩
    · exact ⟨_, rfl⟩

/-- The verdict of `hashVerdict` is symmetric in its two digest arguments. -/
theorem hashVerdict_fst_symm (o1 o2 : Option String) :
    (hashVerdict o1 o2).1 = (hashVerdict o2 o1).1 := by
  cases o1 <;> cases o2 <;> simp [hashVerdict]
  rename_i a b
  by_cases hab : a = b
  · simp [hab]
  · have hba : ¬b = a := fun h => hab h.symm
    simp [hab, hba]

/-- Swapping the two arguments of `compare_files` preserves the boolean
verdict (only the message can change, by swapping the reported values). -/
theorem compare_files_flip (fs : FS) (f1 f2 : String) (s : Bool) (msg : String)
    (h : compare_files fs f1 f2 = Except.ok (s, msg)) :
    ∃ msg', compare_files fs f2 f1 = Except.ok (s, msg') := by
  obtain ⟨h1, h2⟩ := (compare_files_ok_iff fs f1 f2).mp ⟨_, h⟩
  rw [compare_files_eq_of_statOk fs f1 f2 h1 h2] at h
  rw [compare_files_eq_of_statOk fs f2 f1 h2 h1]
  by_cases hsz : (fs.file f1).content.length = (fs.file f2).content.length
  · rw [if_neg (by simp [hsz])] at h
    rw [if_neg (by simp [hsz])]
    refine ⟨(hashVerdict (md5_hash fs f2) (md5_hash fs f1)).2, ?_⟩
    have hs : s = (hashVerdict (md5_hash fs f1) (md5_hash fs f2)).1 :=
      (congrArg Prod.fst (Except.ok.inj h)).symm
    rw [hs, hashVerdict_fst_symm]
  · rw [if_pos hsz] at h
    rw [if_pos (fun hh => hsz hh.symm)]
    have hs : s = false := (congrArg Prod.fst (Except.ok.inj h)).symm
    exact ⟨_, by rw [hs]⟩

/-- Lookup after the symmetric-difference fold: each key written by the fold
holds the label computed from that key alone. -/
theorem foldl_updateMap_lookup (v : String → String) :
    ∀ (l : List String) (m : String → Option String) (p : String),
      (l.foldl (fun acc k => updateMap acc k (v k)) m) p =
        if p ∈ l then some (v p) else m p := by
  intro l
  induction l with
  | nil => intro m p; simp
  | cons k ks ih =>
    intro m p
    rw [List.foldl_cons, ih]
    by_cases hpk : p = k
    · subst hpk
      by_cases hpl : p ∈ ks
      · simp [hpl]
      · simp [hpl, updateMap]
    · by_cases hpl : p ∈ ks
      · simp [hpl, hpk]
      · simp [hpl, hpk, updateMap]

/-- Lookup in the map built from the symmetric-difference loop of
`compare_directories`. -/
theorem results1_lookup (files1 files2 : List String) (d1 d2 p : String) :
    ((uniqueTo1 files1 files2 ++ uniqueTo2 files1 files2).foldl
        (fun m file => updateMap m file (uniqLabel files1 d1 d2 file))
        (fun _ => none)) p =
      if p ∈ files1 ∧ ¬ p ∈ files2 then some ("UNIQ: Only in " ++ d1)
      else if p ∈ files2 ∧ ¬ p ∈ files1 then some ("UNIQ: Only in " ++ d2)
      else none := by
  rw [foldl_updateMap_lookup (uniqLabel files1 d1 d2)]
  by_cases h1 : p ∈ files1 <;> by_cases h2 : p ∈ files2 <;>
    simp [uniqueTo1, uniqueTo2, uniqLabel, List.mem_append, List.mem_filter, h1, h2]

/-- Keys outside the common-files loop are untouched by it. -/
theorem commonFold_notMem (fs : FS) (d1 d2 : String) :
    ∀ (l : List String) (m m' : String → Option String) (p : String),
      commonFold fs d1 d2 m l = Except.ok m' → ¬ p ∈ l → m' p = m p := by
  intro l
  induction l with
  | nil =>
    intro m m' p h _
    simp only [commonFold] at h
    exact congrFun (Except.ok.inj h).symm p
  | cons k ks ih =>
    intro m m' p h hp
    simp only [commonFold] at h
    split at h
    · exact Except.noConfusion h
    · rename_i m2 heq
      have hpk : p ≠ k := fun hh => hp (hh ▸ List.mem_cons_self k ks)
      have hpks : ¬ p ∈ ks := fun hh => hp (List.mem_cons_of_mem k hh)
      rw [ih m2 m' p h hpks]
      unfold dirStep at heq
      split at heq
      · exact Except.noConfusion heq
      · rename_i same message hcf
        have hm2 := Except.ok.inj heq
        rw [← hm2]
        cases same with
        | true => simp
        | false => simp [updateMap, hpk]

/-- A key inside the common-files loop ends up holding `compare_files`'
message exactly when the verdict was "not same". -/
theorem commonFold_mem (fs : FS) (d1 d2 : String) :
    ∀ (l : List String), l.Nodup → ∀ (m m' : String → Option String) (p : String),
      commonFold fs d1 d2 m l = Except.ok m' → p ∈ l →
      ∃ s msg, compare_files fs (pathJoin d1 p) (pathJoin d2 p) = Except.ok (s, msg) ∧
        m' p = if s then m p else some msg := by
  intro l
  induction l with
  | nil => intro _ m m' p _ hp; exact absurd hp (List.not_mem_nil p)
  | cons k ks ih =>
    intro hnd m m' p h hp
    simp only [commonFold] at h
    split at h
    · exact Except.noConfusion h
    · rename_i m2 heq
      rcases List.mem_cons.mp hp with hpk | hpks
      · subst hpk
        unfold dirStep at heq
        split at heq
        · exact Except.noConfusion heq
        · rename_i same message hcf
          refine ⟨same, message, hcf, ?_⟩
          have hpks : ¬ p ∈ ks := (List.nodup_cons.mp hnd).1
          rw [commonFold_notMem fs d1 d2 ks m2 m' p h hpks]
          rw [← Except.ok.inj heq]
          cases same with
          | true => simp
          | false => simp [updateMap]
      · have hk : p ≠ k := by
          intro hh
          subst hh
          exact (List.nodup_cons.mp hnd).1 hpks
        obtain ⟨s, msg, hcf, hm⟩ := ih (List.nodup_cons.mp hnd).2 m2 m' p h hpks
        refine ⟨s, msg, hcf, ?_⟩
        rw [hm]
        unfold dirStep at heq
        split at heq
        · exact Except.noConfusion heq
        · rename_i same message hcf2
          have hm2 := Except.ok.inj heq
          rw [← hm2]
          cases same with
          | true => simp
          | false => simp [updateMap, hk]

/-- The common-files loop finishes normally exactly when `compare_files`
returns normally on every common file. -/
theorem commonFold_ok_iff (fs : FS) (d1 d2 : String) :
    ∀ (l : List String) (m : String → Option String),
      (∃ m', commonFold fs d1 d2 m l = Except.ok m') ↔
        ∀ k ∈ l, ∃ r, compare_files fs (pathJoin d1 k) (pathJoin d2 k) = Except.ok r := by
  intro l
  induction l with
  | nil => intro m; simp [commonFold]
  | cons k ks ih =>
    intro m
    simp only [commonFold]
    constructor
    · rintro ⟨m', hm'⟩ k' hk'
      split at hm'
      · exact Except.noConfusion hm'
      · rename_i m2 heq
        rcases List.mem_cons.mp hk' with hkk | hk'ks
        · subst hkk
          unfold dirStep at heq
          split at heq
          · exact Except.noConfusion heq
          · rename_i same message hcf
            exact ⟨(same, message), hcf⟩
        · exact (ih m2).mp ⟨m', hm'⟩ k' hk'ks
    · intro hall
      obtain ⟨r, hr⟩ := hall k (List.mem_cons_self k ks)
      obtain ⟨same, message⟩ := r
      have hds : dirStep fs d1 d2 m k =
          Except.ok (if !same then updateMap m k message else m) := by
        unfold dirStep
        rw [hr]
      obtain ⟨m', hm'⟩ := (ih (if !same then updateMap m k message else m)).mpr
        (fun k' hk' => hall k' (List.mem_cons_of_mem k hk'))
      refine ⟨m', ?_⟩
      rw [hds]
      exact hm'

theorem mem_commonOf (files1 files2 : List String) (p : String) :
    p ∈ commonOf files1 files2 ↔ (p ∈ files1 ∧ p ∈ files2) := by
  simp [commonOf, List.mem_filter]

/-- The full characterisation of `compare_directories`' result map, case by
case over where the relative path lives. -/
theorem compare_directories_lookup (fs : FS) (d1 d2 : String)
    (m : String → Option String) (h : compare_directories fs d1 d2 = Except.ok m)
    (hnd1 : (fs.tree d1).Nodup) (p : String) :
    (p ∈ fs.tree d1 → ¬ p ∈ fs.tree d2 → m p = some ("UNIQ: Only in " ++ d1)) ∧
    (p ∈ fs.tree d2 → ¬ p ∈ fs.tree d1 → m p = some ("UNIQ: Only in " ++ d2)) ∧
    (p ∈ fs.tree d1 → p ∈ fs.tree d2 →
      ∃ s msg, compare_files fs (pathJoin d1 p) (pathJoin d2 p) = Except.ok (s, msg) ∧
        m p = if s then none else some msg) ∧
    (¬ p ∈ fs.tree d1 → ¬ p ∈ fs.tree d2 → m p = none) := by
  simp only [compare_directories] at h
  have hndc : (commonOf (fs.tree d1) (fs.tree d2)).Nodup := hnd1.filter _
  refine ⟨?_, ?_, ?_, ?_⟩
  · intro hp1 hp2
    have hpc : ¬ p ∈ commonOf (fs.tree d1) (fs.tree d2) := by
      rw [mem_commonOf]
      rintro ⟨_, hh⟩
      exact hp2 hh
    rw [commonFold_notMem fs d1 d2 _ _ m p h hpc, results1_lookup]
    simp [hp1, hp2]
  · intro hp2 hp1
    have hpc : ¬ p ∈ commonOf (fs.tree d1) (fs.tree d2) := by
      rw [mem_commonOf]
      rintro ⟨hh, _⟩
      exact hp1 hh
    rw [commonFold_notMem fs d1 d2 _ _ m p h hpc, results1_lookup]
    simp [hp1, hp2]
  · intro hp1 hp2
    obtain ⟨s, msg, hcf, hm⟩ := commonFold_mem fs d1 d2 _ hndc _ m p h
      ((mem_commonOf (fs.tree d1) (fs.tree d2) p).mpr ⟨hp1, hp2⟩)
    refine ⟨s, msg, hcf, ?_⟩
    rw [hm, results1_lookup]
    simp [hp1, hp2]
  · intro hp1 hp2
    have hpc : ¬ p ∈ commonOf (fs.tree d1) (fs.tree d2) := by
      rw [mem_commonOf]
      rintro ⟨hh, _⟩
      exact hp1 hh
    rw [commonFold_notMem fs d1 d2 _ _ m p h hpc, results1_lookup]
    simp [hp1, hp2]

/-- `compare_directories` returns normally exactly when every common file's
two size queries succeed (a read failure inside `md5_hash` never matters). -/
theorem compare_directories_ok_iff (fs : FS) (d1 d2 : String) :
    (∃ m, compare_directories fs d1 d2 = Except.ok m) ↔
      ∀ k ∈ commonOf (fs.tree d1) (fs.tree d2),
        (fs.file (pathJoin d1 k)).statOk = true ∧
          (fs.file (pathJoin d2 k)).statOk = true := by
  simp only [compare_directories]
  refine Iff.trans (commonFold_ok_iff fs d1 d2 _ _) ?_
  exact forall₂_congr fun k _ => compare_files_ok_iff fs (pathJoin d1 k) (pathJoin d2 k)

/-- When sizes agree and either read fails, `compare_files` reports the
hash-unavailable verdict. -/
theorem compare_files_hash_error (fs : FS) (f1 f2 : String)
    (h1 : (fs.file f1).statOk = true) (h2 : (fs.file f2).statOk = true)
    (hlen : (fs.file f1).content.length = (fs.file f2).content.length)
    (hr : (fs.file f1).readOk = false ∨ (fs.file f2).readOk = false) :
    compare_files fs f1 f2 = Except.ok (false, "Error calculating MD5 hash.") := by
  rw [compare_files_eq_of_statOk fs f1 f2 h1 h2, if_neg (by simp [hlen])]
  rcases hr with hr | hr
  · simp [md5_hash_eq, hr, hashVerdict]
  · cases hro : (fs.file f1).readOk <;> simp [md5_hash_eq, hr, hro, hashVerdict]

/-! ### The claims -/

/-- C1: for two regular files, `main` prints exactly one line, whose label is
`"DIFF: "` when `compare_files` says the files are the same and `"SAME: "`
when it says they are not, followed by the comparator's message (the inverted
labelling of lines 119-124 of the source). -/
theorem file_case_label_inversion (fs : FS) (p1 p2 : String) (same : Bool)
    (message : String) (h : compare_files fs p1 p2 = Except.ok (same, message)) :
    mainFileCase fs p1 p2 =
      Except.ok [(if same then "DIFF: " else "SAME: ") ++ message] := by
  unfold mainFileCase
  rw [h]
  cases same <;> rfl

/-- Witness for C1: two zero-byte files compare as same, and the single
printed line carries the `DIFF: ` label. -/
theorem file_case_label_inversion_witness :
    mainFileCase fsEmpty "a" "b" = Except.ok ["DIFF: Files are the same."] :=
  file_case_label_inversion fsEmpty "a" "b" true "Files are the same." (by rfl)

/-- C3: when the two byte lengths differ, `compare_files` returns the
"not same" verdict with the size-mismatch message, whatever the contents'
readability — no read of either file's content is needed. -/
theorem size_mismatch_short_circuit (fs : FS) (f1 f2 : String)
    (h1 : (fs.file f1).statOk = true) (h2 : (fs.file f2).statOk = true)
    (hne : (fs.file f1).content.length ≠ (fs.file f2).content.length) :
    compare_files fs f1 f2 = Except.ok (false, "Sizes differ: " ++
      toString (fs.file f1).content.length ++ " != " ++
      toString (fs.file f2).content.length) := by
  rw [compare_files_eq_of_statOk fs f1 f2 h1 h2, if_pos hne]

/-- Witness for C3: files of sizes 10 and 12, both unreadable, still produce
the size-mismatch verdict `Sizes differ: 10 != 12`. -/
theorem size_mismatch_short_circuit_witness :
    compare_files fsSizes "f1" "f2" = Except.ok (false, "Sizes differ: 10 != 12") :=
  size_mismatch_short_circuit fsSizes "f1" "f2" rfl rfl (by decide)

/-- C4: readable files with identical byte content (zero-byte files included)
compare as the same. -/
theorem identical_content_same (fs : FS) (f1 f2 : String)
    (h1 : (fs.file f1).statOk = true) (h2 : (fs.file f2).statOk = true)
    (r1 : (fs.file f1).readOk = true) (r2 : (fs.file f2).readOk = true)
    (hc : (fs.file f1).content = (fs.file f2).content) :
    compare_files fs f1 f2 = Except.ok (true, "Files are the same.") := by
  rw [compare_files_eq_of_statOk fs f1 f2 h1 h2, if_neg (by simp [hc])]
  simp [md5_hash_eq, r1, r2, hc, hashVerdict]

/-- Witness for C4: two zero-byte files compare as the same. -/
theorem identical_content_same_witness :
    compare_files fsEmpty "f1" "f2" = Except.ok (true, "Files are the same.") :=
  identical_content_same fsEmpty "f1" "f2" rfl rfl rfl rfl rfl

/-- Counterexample to C5: the two published 128-byte MD5-colliding messages
have equal length and differ in content, yet `compare_files` reports them the
same — equal length plus a differing byte does not force a hash-mismatch
verdict. -/
theorem md5_collision_defeats_hash_check :
    colA ≠ colB ∧ colA.length = colB.length ∧
    (fsCollide.file "f1").content = colA ∧ (fsCollide.file "f2").content = colB ∧
    compare_files fsCollide "f1" "f2" = Except.ok (true, "Files are the same.") :=
  ⟨by decide, by decide, rfl, rfl, by rfl⟩

/-- C5 (amended): readable equal-length files whose MD5 digests differ get the
"not same" verdict with the hash-mismatch message showing both digests. -/
theorem equal_size_hash_mismatch (fs : FS) (f1 f2 : String)
    (h1 : (fs.file f1).statOk = true) (h2 : (fs.file f2).statOk = true)
    (r1 : (fs.file f1).readOk = true) (r2 : (fs.file f2).readOk = true)
    (hlen : (fs.file f1).content.length = (fs.file f2).content.length)
    (hmd5 : md5hex (fs.file f1).content ≠ md5hex (fs.file f2).content) :
    compare_files fs f1 f2 = Except.ok (false, "MD5 hashes differ: " ++
      md5hex (fs.file f1).content ++ " != " ++ md5hex (fs.file f2).content) := by
  rw [compare_files_eq_of_statOk fs f1 f2 h1 h2, if_neg (by simp [hlen])]
  simp [md5_hash_eq, r1, r2, hashVerdict, hmd5]

/-- Witness for C5 (amended): one-byte files `0x00` and `0x07` have distinct
digests and get the hash-mismatch verdict. -/
theorem equal_size_hash_mismatch_witness :
    compare_files fsBytes "f1" "f2" = Except.ok (false, "MD5 hashes differ: " ++
      md5hex [0] ++ " != " ++ md5hex [7]) :=
  equal_size_hash_mismatch fsBytes "f1" "f2" rfl rfl rfl rfl rfl (by decide)

/-- C6: equal sizes but a failed digest computation on either side yields the
"not same" verdict with the distinct hash-unavailable message, never an
equality verdict. -/
theorem hash_error_not_same (fs : FS) (f1 f2 : String)
    (h1 : (fs.file f1).statOk = true) (h2 : (fs.file f2).statOk = true)
    (hlen : (fs.file f1).content.length = (fs.file f2).content.length)
    (hr : (fs.file f1).readOk = false ∨ (fs.file f2).readOk = false) :
    compare_files fs f1 f2 = Except.ok (false, "Error calculating MD5 hash.") :=
  compare_files_hash_error fs f1 f2 h1 h2 hlen hr

/-- Witness for C6: equal-size files, first unreadable. -/
theorem hash_error_not_same_witness :
    compare_files fsUnreadable "f1" "f2" =
      Except.ok (false, "Error calculating MD5 hash.") :=
  hash_error_not_same fsUnreadable "f1" "f2" rfl rfl (by decide) (Or.inl rfl)

/-- C7: the three categories computed by `compare_directories` — unique to the
first tree, unique to the second, common — exactly partition the union of the
two relative-path sets: every path in either tree is in exactly one category. -/
theorem categories_partition (files1 files2 : List String) (p : String)
    (hp : p ∈ files1 ∨ p ∈ files2) :
    (p ∈ uniqueTo1 files1 files2 ∧ ¬ p ∈ uniqueTo2 files1 files2 ∧
      ¬ p ∈ commonOf files1 files2) ∨
    (¬ p ∈ uniqueTo1 files1 files2 ∧ p ∈ uniqueTo2 files1 files2 ∧
      ¬ p ∈ commonOf files1 files2) ∨
    (¬ p ∈ uniqueTo1 files1 files2 ∧ ¬ p ∈ uniqueTo2 files1 files2 ∧
      p ∈ commonOf files1 files2) := by
  by_cases h1 : p ∈ files1 <;> by_cases h2 : p ∈ files2
  · right; right
    simp [uniqueTo1, uniqueTo2, commonOf, List.mem_filter, h1, h2]
  · left
    simp [uniqueTo1, uniqueTo2, commonOf, List.mem_filter, h1, h2]
  · right; left
    simp [uniqueTo1, uniqueTo2, commonOf, List.mem_filter, h1, h2]
  · rcases hp with hp | hp
    · exact absurd hp h1
    · exact absurd hp h2

/-- Witness for C7: in the trees `[a, b]` and `[a, c]`, the path `b` falls in
the unique-to-first category and in no other. -/
theorem categories_partition_witness :
    ("b" ∈ uniqueTo1 ["a", "b"] ["a", "c"] ∧ ¬ "b" ∈ uniqueTo2 ["a", "b"] ["a", "c"] ∧
      ¬ "b" ∈ commonOf ["a", "b"] ["a", "c"]) ∨
    (¬ "b" ∈ uniqueTo1 ["a", "b"] ["a", "c"] ∧ "b" ∈ uniqueTo2 ["a", "b"] ["a", "c"] ∧
      ¬ "b" ∈ commonOf ["a", "b"] ["a", "c"]) ∨
    (¬ "b" ∈ uniqueTo1 ["a", "b"] ["a", "c"] ∧ ¬ "b" ∈ uniqueTo2 ["a", "b"] ["a", "c"] ∧
      "b" ∈ commonOf ["a", "b"] ["a", "c"]) :=
  categories_partition ["a", "b"] ["a", "c"] "b" (Or.inl (by decide))

/-- C8: a relative path present in both trees is absent from the report when
`compare_files` says "same", and present exactly with `compare_files`'
message when it says "not same". -/
theorem common_path_diff_only (fs : FS) (d1 d2 : String)
    (m : String → Option String) (h : compare_directories fs d1 d2 = Except.ok m)
    (hnd1 : (fs.tree d1).Nodup) (p : String)
    (hp1 : p ∈ fs.tree d1) (hp2 : p ∈ fs.tree d2) :
    (∀ msg, compare_files fs (pathJoin d1 p) (pathJoin d2 p) = Except.ok (true, msg) →
      m p = none) ∧
    (∀ msg, compare_files fs (pathJoin d1 p) (pathJoin d2 p) = Except.ok (false, msg) →
      m p = some msg) := by
  obtain ⟨s, msg0, hcf, hm⟩ :=
    (compare_directories_lookup fs d1 d2 m h hnd1 p).2.2.1 hp1 hp2
  constructor
  · intro msg hmsg
    rw [hcf] at hmsg
    have hps := Except.ok.inj hmsg
    have hs : s = true := congrArg Prod.fst hps
    rw [hm, hs, if_pos rfl]
  · intro msg hmsg
    rw [hcf] at hmsg
    have hps := Except.ok.inj hmsg
    have hs : s = false := congrArg Prod.fst hps
    have hmm : msg0 = msg := congrArg Prod.snd hps
    rw [hm, hs, hmm]
    simp

/-- Witness for C8: in `fsDir` the common file `a` (equal content) is absent
from the report and the common file `b` (differing content) is present with
the hash-mismatch message. -/
theorem common_path_diff_only_witness :
    ∃ m, compare_directories fsDir "d1" "d2" = Except.ok m ∧ m "a" = none ∧
      m "b" = some ("MD5 hashes differ: " ++ md5hex [1] ++ " != " ++ md5hex [2]) := by
  obtain ⟨m, hm⟩ : ∃ m, compare_directories fsDir "d1" "d2" = Except.ok m := ⟨_, rfl⟩
  have ha := common_path_diff_only fsDir "d1" "d2" m hm (by decide) "a"
    (by decide) (by decide)
  have hb := common_path_diff_only fsDir "d1" "d2" m hm (by decide) "b"
    (by decide) (by decide)
  exact ⟨m, hm, ha.1 "Files are the same." (by rfl),
    hb.2 ("MD5 hashes differ: " ++ md5hex [1] ++ " != " ++ md5hex [2]) (by rfl)⟩

/-- C9: swapping the two directory arguments preserves the set of reported
relative paths, and a path unique to one tree is labelled with that tree's
root in both argument orders (termination also agrees in both orders). -/
theorem dir_swap_symmetry (fs : FS) (d1 d2 : String)
    (hnd1 : (fs.tree d1).Nodup) (hnd2 : (fs.tree d2).Nodup) :
    ((∃ m, compare_directories fs d1 d2 = Except.ok m) ↔
      (∃ m, compare_directories fs d2 d1 = Except.ok m)) ∧
    ∀ m m', compare_directories fs d1 d2 = Except.ok m →
      compare_directories fs d2 d1 = Except.ok m' →
      (∀ p, (m p).isSome = (m' p).isSome) ∧
      (∀ p, p ∈ fs.tree d1 → ¬ p ∈ fs.tree d2 →
        m p = some ("UNIQ: Only in " ++ d1) ∧ m' p = some ("UNIQ: Only in " ++ d1)) ∧
      (∀ p, p ∈ fs.tree d2 → ¬ p ∈ fs.tree d1 →
        m p = some ("UNIQ: Only in " ++ d2) ∧ m' p = some ("UNIQ: Only in " ++ d2)) := by
  constructor
  · rw [compare_directories_ok_iff, compare_directories_ok_iff]
    constructor
    · intro hall k hk
      rw [mem_commonOf] at hk
      have hk' : k ∈ commonOf (fs.tree d1) (fs.tree d2) :=
        (mem_commonOf _ _ k).mpr ⟨hk.2, hk.1⟩
      exact ⟨(hall k hk').2, (hall k hk').1⟩
    · intro hall k hk
      rw [mem_commonOf] at hk
      have hk' : k ∈ commonOf (fs.tree d2) (fs.tree d1) :=
        (mem_commonOf _ _ k).mpr ⟨hk.2, hk.1⟩
      exact ⟨(hall k hk').2, (hall k hk').1⟩
  · intro m m' h h'
    have L := compare_directories_lookup fs d1 d2 m h hnd1
    have L' := compare_directories_lookup fs d2 d1 m' h' hnd2
    refine ⟨?_, ?_, ?_⟩
    · intro p
      by_cases h1 : p ∈ fs.tree d1 <;> by_cases h2 : p ∈ fs.tree d2
      · obtain ⟨s, msg, hcf, hm⟩ := (L p).2.2.1 h1 h2
        obtain ⟨msg', hcf'⟩ := compare_files_flip fs _ _ s msg hcf
        obtain ⟨s2, msg2, hcf2, hm2⟩ := (L' p).2.2.1 h2 h1
        rw [hcf'] at hcf2
        have hs2 : s = s2 := congrArg Prod.fst (Except.ok.inj hcf2)
        rw [hm, hm2, ← hs2]
        cases s <;> simp
      · rw [(L p).1 h1 h2, (L' p).2.1 h1 h2]
      · rw [(L p).2.1 h2 h1, (L' p).1 h2 h1]
      · rw [(L p).2.2.2 h1 h2, (L' p).2.2.2 h2 h1]
    · intro p hp1 hp2
      exact ⟨(L p).1 hp1 hp2, (L' p).2.1 hp1 hp2⟩
    · intro p hp2 hp1
      exact ⟨(L p).2.1 hp2 hp1, (L' p).1 hp2 hp1⟩

/-- Witness for C9: on the concrete trees `[a, b]` and `[a, c]`, termination
agrees in both argument orders. -/
theorem dir_swap_symmetry_witness :
    (∃ m, compare_directories fsDirU "d1" "d2" = Except.ok m) ↔
      (∃ m, compare_directories fsDirU "d2" "d1" = Except.ok m) :=
  (dir_swap_symmetry fsDirU "d1" "d2" (by decide) (by decide)).1

/-- Counterexample to C2: one single file whose size query fails aborts the
whole directory comparison — no result mapping is produced at all, although
every other file is healthy. -/
theorem size_read_failure_aborts :
    (fsAbort.file (pathJoin "d1" "bad")).statOk = false ∧
    (fsAbort.file (pathJoin "d1" "good")).statOk = true ∧
    (fsAbort.file (pathJoin "d2" "good")).statOk = true ∧
    (fsAbort.file (pathJoin "d2" "bad")).statOk = true ∧
    compare_directories fsAbort "d1" "d2" = Except.error () :=
  ⟨rfl, rfl, rfl, rfl, rfl⟩

/-- C2 (amended): a failure of the open/read step inside `md5_hash` never
aborts the directory comparison — provided every common file's *size* query
succeeds, the comparison returns a mapping, and each equal-size common file
with a failing read degrades to the hash-unavailable message. (A size-query
failure, by contrast, aborts the whole comparison, as
`size_read_failure_aborts` shows.) -/
theorem hash_read_failure_degrades (fs : FS) (d1 d2 : String)
    (hnd1 : (fs.tree d1).Nodup)
    (hstat : ∀ p ∈ commonOf (fs.tree d1) (fs.tree d2),
      (fs.file (pathJoin d1 p)).statOk = true ∧
        (fs.file (pathJoin d2 p)).statOk = true) :
    ∃ m, compare_directories fs d1 d2 = Except.ok m ∧
      ∀ p ∈ commonOf (fs.tree d1) (fs.tree d2),
        (fs.file (pathJoin d1 p)).content.length =
          (fs.file (pathJoin d2 p)).content.length →
        ((fs.file (pathJoin d1 p)).readOk = false ∨
          (fs.file (pathJoin d2 p)).readOk = false) →
        m p = some "Error calculating MD5 hash." := by
  obtain ⟨m, hm⟩ := (compare_directories_ok_iff fs d1 d2).mpr hstat
  refine ⟨m, hm, ?_⟩
  intro p hp hlen hr
  have hp12 := (mem_commonOf _ _ p).mp hp
  obtain ⟨s, msg, hcf, hmp⟩ :=
    (compare_directories_lookup fs d1 d2 m hm hnd1 p).2.2.1 hp12.1 hp12.2
  have hcf2 : compare_files fs (pathJoin d1 p) (pathJoin d2 p) =
      Except.ok (false, "Error calculating MD5 hash.") :=
    compare_files_hash_error fs _ _ (hstat p hp).1 (hstat p hp).2 hlen hr
  rw [hcf] at hcf2
  have hps := Except.ok.inj hcf2
  have hs : s = false := congrArg Prod.fst hps
  have hmm : msg = "Error calculating MD5 hash." := congrArg Prod.snd hps
  rw [hmp, hs, hmm]
  simp

/-- Witness for C2 (amended): in `fsUnread`, the common file `u` cannot be
opened for reading, yet the comparison finishes and degrades `u`'s entry. -/
theorem hash_read_failure_degrades_witness :
    ∃ m, compare_directories fsUnread "d1" "d2" = Except.ok m ∧
      ∀ p ∈ commonOf (fsUnread.tree "d1") (fsUnread.tree "d2"),
        (fsUnread.file (pathJoin "d1" p)).content.length =
          (fsUnread.file (pathJoin "d2" p)).content.length →
        ((fsUnread.file (pathJoin "d1" p)).readOk = false ∨
          (fsUnread.file (pathJoin "d2" p)).readOk = false) →
        m p = some "Error calculating MD5 hash." :=
  hash_read_failure_degrades fsUnread "d1" "d2" (by decide) (by decide)

/-- C10: the digest and the comparison verdict are pure functions of the
files' contents and fault flags — any two filesystem states and paths that
agree on the relevant file data yield identical results, so nothing besides
the file bytes (no cache, no other state) influences a run. -/
theorem digest_deterministic (fs fs' : FS) (p p' f1 f2 f1' f2' : String)
    (hp : fs.file p = fs'.file p') (h1 : fs.file f1 = fs'.file f1')
    (h2 : fs.file f2 = fs'.file f2') :
    md5_hash fs p = md5_hash fs' p' ∧
      compare_files fs f1 f2 = compare_files fs' f1' f2' := by
  constructor
  · rw [md5_hash_eq, md5_hash_eq, hp]
  · unfold compare_files getsize
    rw [md5_hash_eq fs f1, md5_hash_eq fs f2, md5_hash_eq fs' f1',
      md5_hash_eq fs' f2', h1, h2]

/-- Witness for C10: two distinct filesystem states agreeing on the queried
paths produce identical digests and verdicts. -/
theorem digest_deterministic_witness :
    md5_hash fsP1 "a" = md5_hash fsP2 "x" ∧
      compare_files fsP1 "a" "b" = compare_files fsP2 "x" "x" :=
  digest_deterministic fsP1 fsP2 "a" "x" "a" "b" "x" "x" rfl rfl rfl
